import Mathlib

/-!
# Generation Session Controller — verification of `src/frontend/src/App.tsx`

A shallow embedding of the session controller of the screenshot-to-code
frontend.  The React component keeps its session fields in `useState` hooks;
we model them as one record, `Session`, and each operation of the component
(`reset`, `stop`, `doGenerateCode`, `doGenerateInstruction`, `doCreate`,
`doUpdate`, `instructionGenerate`) as a pure function on that record.
Operations that issue a generation request additionally return the list of
requests they issued, so that properties about request parameters can be
stated.  The stream callbacks that `doGenerateCode` / `doGenerateInstruction`
install are modelled as the pure functions `onCodeToken`, `onCodeReplace`,
`onLog`, `onCodeDone`, `onInstructionToken`, `onInstructionReplace`,
`onInstructionDone` — each one is the literal body of the corresponding
arrow function passed in the source.
-/

namespace ScreennieToCode

/-- The `AppState` enum of the frontend: `INITIAL`, `CODING` (the spec's
GENERATING), `CODE_READY` (the spec's READY) and `INSTRUCTION_GENERATING`
(the spec's REFINING). -/
inductive AppState where
  | INITIAL
  | CODING
  | CODE_READY
  | INSTRUCTION_GENERATING
deriving DecidableEq, Repr

/-- The session fields held by `useState`/`useRef` hooks in `App`:
`appState`, `generatedCode` (the output buffer), `referenceImages`,
`executionConsole` (the console log), `updateInstruction` (the pending
instruction), `history`, `shouldIncludeResultImage`, `mistakesNum`, and
`wsOpen`, which models whether `wsRef` currently holds an open WebSocket. -/
structure Session where
  appState : AppState
  generatedCode : String
  referenceImages : List String
  executionConsole : List String
  updateInstruction : String
  history : List String
  shouldIncludeResultImage : Bool
  mistakesNum : Nat
  wsOpen : Bool
deriving DecidableEq, Repr

/-- The state at application start: every `useState` initialiser in `App`. -/
def initialSession : Session :=
  { appState := AppState.INITIAL
    generatedCode := ""
    referenceImages := []
    executionConsole := []
    updateInstruction := ""
    history := []
    shouldIncludeResultImage := false
    mistakesNum := 0
    wsOpen := false }

/-- `CodeGenerationParams` from `generateCode.ts` as used by `App`:
`generationType` is `"create"` or `"update"`; `image` is
`referenceImages[0]`, which in TypeScript may be `undefined` when the list
is empty, hence `Option String`; `resultImage` and `history` are the two
optional fields only `doUpdate` supplies.  The merge
`{ ...params, ...settings }` adds the disjoint `Settings` keys and leaves
these four fields untouched, so they are the whole request as far as the
session logic is concerned. -/
structure CodeGenerationParams where
  generationType : String
  image : Option String
  resultImage : Option String
  history : Option (List String)
deriving DecidableEq, Repr

/-- `InstructionGenerationParams` from `generateCode.ts` as used by `App`. -/
structure InstructionGenerationParams where
  image : Option String
  resultImage : String
deriving DecidableEq, Repr

/-- A request issued on the channel: either a code generation or an
instruction generation invocation. -/
inductive GenRequest where
  | code (params : CodeGenerationParams)
  | instruction (params : InstructionGenerationParams)
deriving DecidableEq, Repr

/-- The `image` parameter of a request. -/
def reqImage : GenRequest → Option String
  | GenRequest.code p => p.image
  | GenRequest.instruction p => p.image

/-- `reset` (App.tsx lines 88–94): sets `appState` to `INITIAL` and clears
`generatedCode`, `referenceImages`, `executionConsole` and `history`.  The
source touches no other hook: `updateInstruction`, `mistakesNum`,
`shouldIncludeResultImage` and the WebSocket ref are left as they are. -/
def reset (s : Session) : Session :=
  { s with
    appState := AppState.INITIAL
    generatedCode := ""
    referenceImages := []
    executionConsole := []
    history := [] }

/-- `stop` (App.tsx lines 96–100): `wsRef.current?.close?.(code)` followed by
`setAppState(CODE_READY)`.  Closing an already-closed (or absent) WebSocket
is a no-op, so the handle simply ends up closed. -/
def stop (s : Session) : Session :=
  { s with
    wsOpen := false
    appState := AppState.CODE_READY }

/-- `doGenerateCode` (App.tsx lines 102–117): clears `executionConsole`,
sets `appState` to `CODING`, merges `settings` into `params` (disjoint keys,
see `CodeGenerationParams`) and calls `generateCode`, which opens the
session's WebSocket (modelled as `wsOpen := true`; `generateCode.ts` is the
Channel Adapter, per the spec it opens one connection per request) and
issues the request. -/
def doGenerateCode (params : CodeGenerationParams) (s : Session) :
    Session × List GenRequest :=
  ({ s with
      executionConsole := []
      appState := AppState.CODING
      wsOpen := true },
   [GenRequest.code params])

/-- `doGenerateInstruction` (App.tsx lines 119–142): sets `appState` to
`INSTRUCTION_GENERATING`, clears `updateInstruction`, resets `mistakesNum`
to 0, and calls `generateInstruction` (opens the WebSocket, issues the
request).  Note it does not clear `executionConsole`. -/
def doGenerateInstruction (params : InstructionGenerationParams) (s : Session) :
    Session × List GenRequest :=
  ({ s with
      appState := AppState.INSTRUCTION_GENERATING
      updateInstruction := ""
      mistakesNum := 0
      wsOpen := true },
   [GenRequest.instruction params])

/-- `doCreate` (App.tsx lines 145–153): stores the argument in
`referenceImages`, then only if the list is non-empty starts a `"create"`
generation with `referenceImages[0]` as the image. -/
def doCreate (referenceImages : List String) (s : Session) :
    Session × List GenRequest :=
  let s1 := { s with referenceImages := referenceImages }
  if referenceImages.length > 0 then
    doGenerateCode
      { generationType := "create"
        image := referenceImages.head?
        resultImage := none
        history := none } s1
  else
    (s1, [])

/-- `doUpdate` (App.tsx lines 156–177): computes
`updatedHistory = [...history, generatedCode, updateInstruction]` from the
pre-update values, starts an `"update"` generation with
`referenceImages[0]`, the screenshot (only when `shouldIncludeResultImage`)
and `updatedHistory`, then stores `updatedHistory` and clears
`generatedCode` and `updateInstruction`.  `takeScreenshot` is an external
capability; its result is the `screenshot` argument. -/
def doUpdate (screenshot : String) (s : Session) : Session × List GenRequest :=
  let updatedHistory := s.history ++ [s.generatedCode, s.updateInstruction]
  let params : CodeGenerationParams :=
    if s.shouldIncludeResultImage then
      { generationType := "update"
        image := s.referenceImages.head?
        resultImage := some screenshot
        history := some updatedHistory }
    else
      { generationType := "update"
        image := s.referenceImages.head?
        resultImage := none
        history := some updatedHistory }
  let r := doGenerateCode params s
  ({ r.fst with
      history := updatedHistory
      generatedCode := ""
      updateInstruction := "" },
   r.snd)

/-- `instructionGenerate` (App.tsx lines 191–198): takes a screenshot
(external capability, the `screenshot` argument) and starts an instruction
generation with `referenceImages[0]` as the image. -/
def instructionGenerate (screenshot : String) (s : Session) :
    Session × List GenRequest :=
  doGenerateInstruction
    { image := s.referenceImages.head?
      resultImage := screenshot } s

/-- The token callback `doGenerateCode` installs:
`(token) => setGeneratedCode((prev) => prev + token)`. -/
def onCodeToken (token : String) (s : Session) : Session :=
  { s with generatedCode := s.generatedCode ++ token }

/-- The replace callback `doGenerateCode` installs:
`(code) => setGeneratedCode(code)`. -/
def onCodeReplace (code : String) (s : Session) : Session :=
  { s with generatedCode := code }

/-- The log callback both generators install:
`(line) => setExecutionConsole((prev) => [...prev, line])`. -/
def onLog (line : String) (s : Session) : Session :=
  { s with executionConsole := s.executionConsole ++ [line] }

/-- The completion callback `doGenerateCode` installs:
`() => setAppState(CODE_READY)`. -/
def onCodeDone (s : Session) : Session :=
  { s with appState := AppState.CODE_READY }

/-- The token callback `doGenerateInstruction` installs:
`(token) => setUpdateInstruction((prev) => prev + token)`. -/
def onInstructionToken (token : String) (s : Session) : Session :=
  { s with updateInstruction := s.updateInstruction ++ token }

/-- The replace callback `doGenerateInstruction` installs:
`(code) => setUpdateInstruction(code)`. -/
def onInstructionReplace (text : String) (s : Session) : Session :=
  { s with updateInstruction := text }

/-- The completion callback `doGenerateInstruction` installs: sets
`appState` to `CODE_READY` and recomputes `mistakesNum` from the completed
instruction text.  `calculateMistakesNum` lives in `lib/utils` (not part of
the session controller source), so it is a parameter `calcMistakes`. -/
def onInstructionDone (calcMistakes : String → Nat) (s : Session) : Session :=
  { s with
    appState := AppState.CODE_READY
    mistakesNum := calcMistakes s.updateInstruction }

/-- Direct user typing into the instruction textarea:
`(e) => setUpdateInstruction(e.target.value)`. -/
def setUpdateInstruction (v : String) (s : Session) : Session :=
  { s with updateInstruction := v }

/-- Direct user edit of the code in the CodeMirror editor:
`onCodeChange = setGeneratedCode`. -/
def setGeneratedCode (v : String) (s : Session) : Session :=
  { s with generatedCode := v }

/-- The "include screenshot" switch: `onCheckedChange = setShouldIncludeResultImage`. -/
def setShouldIncludeResultImage (b : Bool) (s : Session) : Session :=
  { s with shouldIncludeResultImage := b }

/-- One step of the session: any operation the presentation layer can invoke
and any stream event a generator's callbacks can deliver. -/
inductive Step : Session → Session → Prop where
  | create (imgs : List String) (s : Session) : Step s (doCreate imgs s).fst
  | update (shot : String) (s : Session) : Step s (doUpdate shot s).fst
  | instrGen (shot : String) (s : Session) : Step s (instructionGenerate shot s).fst
  | stopStep (s : Session) : Step s (stop s)
  | resetStep (s : Session) : Step s (reset s)
  | codeToken (t : String) (s : Session) : Step s (onCodeToken t s)
  | codeReplace (c : String) (s : Session) : Step s (onCodeReplace c s)
  | logLine (l : String) (s : Session) : Step s (onLog l s)
  | codeDone (s : Session) : Step s (onCodeDone s)
  | instrToken (t : String) (s : Session) : Step s (onInstructionToken t s)
  | instrReplace (c : String) (s : Session) : Step s (onInstructionReplace c s)
  | instrDone (f : String → Nat) (s : Session) : Step s (onInstructionDone f s)
  | editInstr (v : String) (s : Session) : Step s (setUpdateInstruction v s)
  | editCode (v : String) (s : Session) : Step s (setGeneratedCode v s)
  | toggleResultImage (b : Bool) (s : Session) : Step s (setShouldIncludeResultImage b s)

/-- Session states reachable from application start. -/
inductive Reachable : Session → Prop where
  | init : Reachable initialSession
  | step {s t : Session} : Reachable s → Step s t → Reachable t

/-- The History Ledger view of the flat `history` array: consecutive pairs
`(priorCode, instructionApplied)`. -/
def historyPairs : List String → List (String × String)
  | a :: b :: rest => (a, b) :: historyPairs rest
  | _ => []

theorem historyPairs_append_pair :
    ∀ (h : List String), Even h.length → ∀ a b : String,
      historyPairs (h ++ [a, b]) = historyPairs h ++ [(a, b)]
  | [], _, _, _ => rfl
  | [_], he, _, _ => absurd he (by simp)
  | x :: y :: t, he, a, b => by
    have ht : Even t.length := by
      simpa [Nat.even_add_one, Nat.succ_eq_add_one] using he
    simp only [List.cons_append, historyPairs]
    exact congrArg (List.cons (x, y)) (historyPairs_append_pair t ht a b)

/-- Every reachable `INITIAL` state has an empty reference-image list:
`doCreate` only stays in `INITIAL` when handed the empty list, and `reset`
clears the list. -/
theorem reachable_initial_no_images {s : Session} (h : Reachable s) :
    s.appState = AppState.INITIAL → s.referenceImages = [] := by
  induction h with
  | init => intro; rfl
  | step _ hs ih =>
    cases hs with
    | create imgs s =>
      by_cases himgs : imgs.length > 0
      · intro hphase
        simp [doCreate, doGenerateCode, himgs] at hphase
      · intro _
        have : imgs = [] := List.length_eq_zero.mp (by omega)
        simp [doCreate, himgs, this]
    | update shot s => intro hphase; simp [doUpdate, doGenerateCode] at hphase
    | instrGen shot s =>
      intro hphase
      simp [instructionGenerate, doGenerateInstruction] at hphase
    | stopStep s => intro hphase; simp [stop] at hphase
    | resetStep s => intro _; rfl
    | codeToken t s => exact fun hp => ih hp
    | codeReplace c s => exact fun hp => ih hp
    | logLine l s => exact fun hp => ih hp
    | codeDone s => intro hphase; simp [onCodeDone] at hphase
    | instrToken t s => exact fun hp => ih hp
    | instrReplace c s => exact fun hp => ih hp
    | instrDone f s => intro hphase; simp [onInstructionDone] at hphase
    | editInstr v s => exact fun hp => ih hp
    | editCode v s => exact fun hp => ih hp
    | toggleResultImage b s => exact fun hp => ih hp

/-- Every reachable state has an even-length flat `history` array: entries
are appended two at a time (`generatedCode` then `updateInstruction`) and
`reset` empties the array. -/
theorem reachable_history_even {s : Session} (h : Reachable s) :
    Even s.history.length := by
  induction h with
  | init => simp [initialSession]
  | step _ hs ih =>
    cases hs with
    | create imgs s =>
      by_cases himgs : imgs.length > 0 <;>
        simpa [doCreate, doGenerateCode, himgs] using ih
    | update shot s =>
      simpa [doUpdate, doGenerateCode, Nat.even_add_one, Nat.succ_eq_add_one]
        using ih
    | instrGen shot s =>
      simpa [instructionGenerate, doGenerateInstruction] using ih
    | stopStep s => simpa [stop] using ih
    | resetStep s => simp [reset]
    | codeToken t s => simpa [onCodeToken] using ih
    | codeReplace c s => simpa [onCodeReplace] using ih
    | logLine l s => simpa [onLog] using ih
    | codeDone s => simpa [onCodeDone] using ih
    | instrToken t s => simpa [onInstructionToken] using ih
    | instrReplace c s => simpa [onInstructionReplace] using ih
    | instrDone f s => simpa [onInstructionDone] using ih
    | editInstr v s => simpa [setUpdateInstruction] using ih
    | editCode v s => simpa [setGeneratedCode] using ih
    | toggleResultImage b s => simpa [setShouldIncludeResultImage] using ih

/-- A concrete reachable `CODE_READY` session: create with one image, stream
some code, finish. -/
def readyExample : Session :=
  onCodeDone (onCodeToken "<html>A</html>" (doCreate ["img1"] initialSession).fst)

theorem readyExample_reachable : Reachable readyExample :=
  Reachable.step
    (Reachable.step
      (Reachable.step Reachable.init (Step.create ["img1"] initialSession))
      (Step.codeToken "<html>A</html>" (doCreate ["img1"] initialSession).fst))
    (Step.codeDone
      (onCodeToken "<html>A</html>" (doCreate ["img1"] initialSession).fst))

/-- A concrete reachable session mid-generation: create with one image.
`doGenerateCode` has opened the WebSocket and set the phase to `CODING`. -/
def codingExample : Session := (doCreate ["img"] initialSession).fst

theorem codingExample_reachable : Reachable codingExample :=
  Reachable.step Reachable.init (Step.create ["img"] initialSession)

/-- A concrete reachable session that has finished a refinement: the user
created, the generation finished, an instruction was streamed in and the
refinement completed with 3 mistakes reported by `calculateMistakesNum`. -/
def refinedExample : Session :=
  onInstructionDone (fun _ => 3)
    (onInstructionReplace "make the button blue"
      ((instructionGenerate "" (onCodeDone codingExample)).fst))

theorem refinedExample_reachable : Reachable refinedExample :=
  Reachable.step
    (Reachable.step
      (Reachable.step
        (Reachable.step codingExample_reachable (Step.codeDone codingExample))
        (Step.instrGen "" (onCodeDone codingExample)))
      (Step.instrReplace "make the button blue"
        ((instructionGenerate "" (onCodeDone codingExample)).fst)))
    (Step.instrDone (fun _ => 3)
      (onInstructionReplace "make the button blue"
        ((instructionGenerate "" (onCodeDone codingExample)).fst)))

/-- C1 counterexample: `refinedExample` is a reachable session with
`updateInstruction = "make the button blue"` and `mistakesNum = 3`;
`reset` leaves both untouched, so it does not return every field to its
initial value as the claim states. -/
theorem claimC1_counterexample :
    Reachable refinedExample ∧
    (reset refinedExample).updateInstruction ≠ "" ∧
    (reset refinedExample).mistakesNum ≠ 0 :=
  ⟨refinedExample_reachable, by decide, by decide⟩

/-- C1 (amended): `reset()` sets the phase to `INITIAL` and clears
`generatedCode`, `referenceImages`, `executionConsole` and `history`, but
leaves `updateInstruction` (the pending instruction) and `mistakesNum`
unchanged rather than clearing them. -/
theorem claimC1_reset_fields (s : Session) :
    (reset s).appState = AppState.INITIAL ∧
    (reset s).generatedCode = "" ∧
    (reset s).referenceImages = [] ∧
    (reset s).executionConsole = [] ∧
    (reset s).history = [] ∧
    (reset s).updateInstruction = s.updateInstruction ∧
    (reset s).mistakesNum = s.mistakesNum :=
  ⟨rfl, rfl, rfl, rfl, rfl, rfl, rfl⟩

/-- C4 counterexample: `codingExample` is a reachable session in
`CODING` (GENERATING) with an open WebSocket handle, and `reset` leaves the
handle open: it does not cancel the active handle as the claim states. -/
theorem claimC4_counterexample :
    Reachable codingExample ∧
    codingExample.appState = AppState.CODING ∧
    codingExample.wsOpen = true ∧
    (reset codingExample).wsOpen = true :=
  ⟨codingExample_reachable, by decide, by decide, by decide⟩

/-- C4 (amended): `reset()` never touches the WebSocket handle — whatever
state the handle was in is preserved (an open handle stays open) — while
the session fields are cleared and the phase returns to `INITIAL`; only
`stop()` closes the handle. -/
theorem claimC4_reset_keeps_handle (s : Session) :
    (reset s).wsOpen = s.wsOpen ∧
    (reset s).appState = AppState.INITIAL ∧
    (stop s).wsOpen = false :=
  ⟨rfl, rfl, rfl⟩

/-- C6: `stop()` is idempotent — calling it twice yields exactly the state
of calling it once, and after the first call the phase is already
`CODE_READY` (READY), where it remains. -/
theorem claimC6_stop_idempotent (s : Session) :
    stop (stop s) = stop s ∧ (stop s).appState = AppState.CODE_READY :=
  ⟨rfl, rfl⟩

/-- C9: from `CODING` (GENERATING), `stop()` moves the phase to
`CODE_READY` (READY) and leaves the partial output buffer exactly as it
was, and also leaves `history`, `referenceImages`, `executionConsole` and
`updateInstruction` unchanged. -/
theorem claimC9_stop_preserves_buffer (s : Session)
    (h : s.appState = AppState.CODING) :
    (stop s).appState = AppState.CODE_READY ∧
    (stop s).generatedCode = s.generatedCode ∧
    (stop s).history = s.history ∧
    (stop s).referenceImages = s.referenceImages ∧
    (stop s).executionConsole = s.executionConsole ∧
    (stop s).updateInstruction = s.updateInstruction :=
  ⟨rfl, rfl, rfl, rfl, rfl, rfl⟩

/-- C9 witness: the mid-stream session with partial buffer `"<htm"`. -/
theorem claimC9_witness :
    (onCodeToken "<htm" codingExample).generatedCode = "<htm" ∧
    (stop (onCodeToken "<htm" codingExample)).appState = AppState.CODE_READY ∧
    (stop (onCodeToken "<htm" codingExample)).generatedCode = "<htm" :=
  ⟨by decide,
   (claimC9_stop_preserves_buffer (onCodeToken "<htm" codingExample)
      (by decide)).1,
   by
    have h :=
      (claimC9_stop_preserves_buffer (onCodeToken "<htm" codingExample)
        (by decide)).2.1
    simpa using h⟩

/-- C3 counterexample: `stop()` invoked in `INITIAL` — an illegal phase for
it — does not leave the session unchanged: it moves the phase to
`CODE_READY`.  Likewise `update()` invoked in `INITIAL` transitions to
`CODING` and grows the history. -/
theorem claimC3_counterexample :
    initialSession.appState = AppState.INITIAL ∧
    stop initialSession ≠ initialSession ∧
    (stop initialSession).appState = AppState.CODE_READY ∧
    ((doUpdate "" initialSession).fst).appState = AppState.CODING ∧
    ((doUpdate "" initialSession).fst).history = ["", ""] :=
  ⟨rfl, by decide, rfl, by decide, by decide⟩

/-- C3 (amended): the code has no phase guards on `stop` and `update`: from
every phase — including the phases where they are illegal (`stop` in
`INITIAL` or `CODE_READY`, `update` in `INITIAL`, `CODING` or
`INSTRUCTION_GENERATING`) — `stop()` unconditionally forces `CODE_READY`
and closes the handle, and `update()` unconditionally appends
`(generatedCode, updateInstruction)` to the history, clears both buffers
and transitions to `CODING`.  Only `create()` carries a guard, and it
checks the image list, not the phase. -/
theorem claimC3_no_phase_guards (shot : String) (s : Session) :
    (stop s).appState = AppState.CODE_READY ∧
    (stop s).wsOpen = false ∧
    ((doUpdate shot s).fst).appState = AppState.CODING ∧
    ((doUpdate shot s).fst).history
      = s.history ++ [s.generatedCode, s.updateInstruction] ∧
    ((doUpdate shot s).fst).generatedCode = "" ∧
    ((doUpdate shot s).fst).updateInstruction = "" :=
  ⟨rfl, rfl, rfl, rfl, rfl, rfl⟩

/-- C5 counterexample: a session that accumulated the console line
`"line1"` during generation loses it when a new generation starts —
`update()` (and `create()`) clear `executionConsole` via `doGenerateCode` —
contradicting the claim that only `reset()` may remove lines. -/
theorem claimC5_counterexample :
    (onCodeDone (onLog "line1" codingExample)).executionConsole = ["line1"] ∧
    ((doUpdate "" (onCodeDone (onLog "line1" codingExample))).fst).executionConsole
      = [] ∧
    ((doCreate ["img2"] (onCodeDone (onLog "line1" codingExample))).fst).executionConsole
      = [] :=
  ⟨by decide, by decide, by decide⟩

/-- C5 (amended): `executionConsole` is append-only while a stream runs —
each `Log` event appends exactly one line at the end — but `doGenerateCode`
(invoked by both `create()` and `update()`) clears the console at the start
of every new generation, and `reset()` clears it as well. -/
theorem claimC5_console_append_and_clear (line : String)
    (p : CodeGenerationParams) (s : Session) :
    (onLog line s).executionConsole = s.executionConsole ++ [line] ∧
    ((doGenerateCode p s).fst).executionConsole = [] ∧
    (reset s).executionConsole = [] :=
  ⟨rfl, rfl, rfl⟩

/-- C8: `Token` events are applied to the output buffer by concatenation in
arrival order and `Done` only changes the phase; concretely, from
`INITIAL`, `create(["img1"])` yields phase `CODING` with an empty buffer,
`Token("<ht")` then `Token("ml>")` yield buffer `"<html>"`, and `Done`
yields phase `CODE_READY` with the buffer still `"<html>"`. -/
theorem claimC8_token_stream_scenario (t : String) (s : Session) :
    (onCodeToken t s).generatedCode = s.generatedCode ++ t ∧
    (onCodeToken t s).appState = s.appState ∧
    (onCodeDone s).generatedCode = s.generatedCode ∧
    (onCodeDone s).appState = AppState.CODE_READY ∧
    ((doCreate ["img1"] initialSession).fst).appState = AppState.CODING ∧
    ((doCreate ["img1"] initialSession).fst).generatedCode = "" ∧
    (onCodeToken "ml>" (onCodeToken "<ht"
        (doCreate ["img1"] initialSession).fst)).generatedCode = "<html>" ∧
    (onCodeDone (onCodeToken "ml>" (onCodeToken "<ht"
        (doCreate ["img1"] initialSession).fst))).appState
      = AppState.CODE_READY ∧
    (onCodeDone (onCodeToken "ml>" (onCodeToken "<ht"
        (doCreate ["img1"] initialSession).fst))).generatedCode = "<html>" :=
  ⟨rfl, rfl, rfl, rfl, by decide, by decide, by decide, by decide, by decide⟩

/-- C2: from a reachable `CODE_READY` (READY) session, `update()` appends
exactly the pre-update pair `(generatedCode, updateInstruction)` to the
history — the flat array grows by the two components in order, the ledger
viewed as pairs grows by exactly one entry, and that entry is the
pre-update pair (so the append uses the values from before they are
cleared). -/
theorem claimC2_update_appends_history (shot : String) (s : Session)
    (hr : Reachable s) (h : s.appState = AppState.CODE_READY) :
    ((doUpdate shot s).fst).history
      = s.history ++ [s.generatedCode, s.updateInstruction] ∧
    historyPairs ((doUpdate shot s).fst).history
      = historyPairs s.history ++ [(s.generatedCode, s.updateInstruction)] ∧
    (historyPairs ((doUpdate shot s).fst).history).length
      = (historyPairs s.history).length + 1 := by
  have he := reachable_history_even hr
  have hp := historyPairs_append_pair s.history he s.generatedCode
    s.updateInstruction
  refine ⟨rfl, hp, ?_⟩
  rw [show historyPairs ((doUpdate shot s).fst).history
        = historyPairs s.history ++ [(s.generatedCode, s.updateInstruction)]
      from hp]
  simp

/-- C2 witness: updating the concrete ready session with buffer
`"<html>A</html>"` and empty instruction. -/
theorem claimC2_witness :
    ((doUpdate "" readyExample).fst).history
      = readyExample.history
        ++ [readyExample.generatedCode, readyExample.updateInstruction] ∧
    (historyPairs ((doUpdate "" readyExample).fst).history).length
      = (historyPairs readyExample.history).length + 1 :=
  ⟨(claimC2_update_appends_history "" readyExample readyExample_reachable
      (by decide)).1,
   (claimC2_update_appends_history "" readyExample readyExample_reachable
      (by decide)).2.2⟩

/-- C7: from a reachable `INITIAL` session, `doCreate` with an empty image
list is a no-op: the session state is returned unchanged (in `INITIAL`,
`referenceImages` is already empty, so the unconditional
`setReferenceImages` writes the value it already has) and no generation
request is issued. -/
theorem claimC7_create_empty_noop (s : Session) (hr : Reachable s)
    (h : s.appState = AppState.INITIAL) :
    doCreate [] s = (s, []) := by
  have hre := reachable_initial_no_images hr h
  cases s with
  | mk a g refs con ui hi inc m w =>
    simp only [Session.referenceImages] at hre
    subst hre
    rfl

/-- C7 witness: creating with no images at application start. -/
theorem claimC7_witness : doCreate [] initialSession = (initialSession, []) :=
  claimC7_create_empty_noop initialSession Reachable.init rfl

/-- C10: every request the session issues — by `doCreate`, `doUpdate` and
`instructionGenerate` alike — carries `referenceImages[0]` as its image
parameter, and the issued requests depend on the reference-image list only
through its first element: lists with equal heads produce identical
requests. -/
theorem claimC10_requests_use_first_image (s : Session)
    (imgsA imgsB : List String) (shot : String)
    (h : imgsA.head? = imgsB.head?) :
    (∀ r ∈ (doCreate imgsA s).snd, reqImage r = imgsA.head?) ∧
    (∀ r ∈ (doUpdate shot s).snd, reqImage r = s.referenceImages.head?) ∧
    (∀ r ∈ (instructionGenerate shot s).snd,
      reqImage r = s.referenceImages.head?) ∧
    (doCreate imgsA s).snd = (doCreate imgsB s).snd ∧
    (doUpdate shot { s with referenceImages := imgsA }).snd
      = (doUpdate shot { s with referenceImages := imgsB }).snd ∧
    (instructionGenerate shot { s with referenceImages := imgsA }).snd
      = (instructionGenerate shot { s with referenceImages := imgsB }).snd := by
  refine ⟨?_, ?_, ?_, ?_, ?_, ?_⟩
  · intro r hr
    by_cases himgs : imgsA.length > 0 <;>
      simp [doCreate, doGenerateCode, himgs] at hr
    subst hr
    rfl
  · intro r hr
    simp [doUpdate, doGenerateCode] at hr
    subst hr
    by_cases hinc : s.shouldIncludeResultImage <;> simp [hinc, reqImage]
  · intro r hr
    simp [instructionGenerate, doGenerateInstruction] at hr
    subst hr
    rfl
  · cases imgsA <;> cases imgsB <;>
      simp_all [doCreate, doGenerateCode]
  · by_cases hinc : s.shouldIncludeResultImage <;>
      simp [doUpdate, doGenerateCode, hinc, h]
  · simp [instructionGenerate, doGenerateInstruction, h]

/-- C10 witness: two-image lists sharing the head `"a"` yield identical
update and instruction requests. -/
theorem claimC10_witness :
    (doUpdate "" { initialSession with referenceImages := ["a", "b"] }).snd
      = (doUpdate "" { initialSession with referenceImages := ["a", "c"] }).snd ∧
    (instructionGenerate ""
        { initialSession with referenceImages := ["a", "b"] }).snd
      = (instructionGenerate ""
        { initialSession with referenceImages := ["a", "c"] }).snd :=
  ⟨(claimC10_requests_use_first_image initialSession ["a", "b"] ["a", "c"] ""
      rfl).2.2.2.2.1,
   (claimC10_requests_use_first_image initialSession ["a", "b"] ["a", "c"] ""
      rfl).2.2.2.2.2⟩

end ScreennieToCode
